import Mathlib

/-!
Verification of the streaming chat client core of the hive-feature-demo
repository.  The definitions below are a shallow embedding of the
TypeScript source:

* `frontend/components/Chat.tsx` — the client reducer (`send`,
  `flushText`, `appendContent`, `updatePhase`, the event loop);
* `frontend/components/AgentPipeline.tsx` — the phase display;
* `frontend/components/Message.tsx` — the transcript renderer
  (`MessageBubble`);
* the `CampaignPreview` component (`SMSPreview`);
* `lib/api.ts` (listed in `ENGINEERING.md`) — `streamChat`'s per-frame
  decoding.

JavaScript numbers that are only carried through (never computed with)
are modelled as `Rat`; strings as Lean `String`.
-/

namespace HiveDemo

/-- Phase status, `type PhaseStatus = "idle" | "running" | "done" | "error"`. -/
inductive PhaseStatus where
  | idle
  | running
  | done
  | error
deriving DecidableEq, Repr

/-- A fan record as carried in `AudienceResult.fans` (shape from `lib/api.ts`). -/
structure Fan where
  id : String
  first_name : String
  last_name : String
  city : String
  state : String
  total_spent : Rat
  genres : List String
  last_purchase_date : String
deriving DecidableEq, Repr

/-- `AudienceResult` payload of an `audience_result` event. -/
structure AudienceResult where
  count : Nat
  segment_id : String
  avg_spent : Rat
  open_rate : Rat
  fans : List Fan
deriving DecidableEq, Repr

/-- The `email` part of a `CampaignDraft`. -/
structure EmailDraft where
  subject : String
  preview_text : String
  body : String
deriving DecidableEq, Repr

/-- The `sms` part of a `CampaignDraft`. -/
structure SMSDraft where
  body : String
deriving DecidableEq, Repr

/-- `CampaignDraft` payload of a `campaign_draft` event. -/
structure CampaignDraft where
  email : EmailDraft
  sms : SMSDraft
deriving DecidableEq, Repr

/-- `ScheduleResult` payload of a `scheduled` event. -/
structure ScheduleResult where
  campaign_id : String
  segment_id : String
  event_name : String
  audience_size : Nat
  send_at : String
  status : String
deriving DecidableEq, Repr

/-- `MessageContent`: the tagged content-block variant the Chat component renders. -/
inductive MessageContent where
  | text (t : String)
  | audience (d : AudienceResult)
  | campaign (d : CampaignDraft)
  | scheduled (d : ScheduleResult)
deriving DecidableEq, Repr

/-- Message role. -/
inductive Role where
  | user
  | assistant
deriving DecidableEq, Repr

/-- A transcript `Message`. -/
structure Message where
  id : String
  role : Role
  contents : List MessageContent
deriving DecidableEq, Repr

/-- A `ChatMessage` history entry `{role, content}` sent to the API. -/
structure ChatMessage where
  role : Role
  content : String
deriving DecidableEq, Repr

/-- The SSE wire events (`SSEEvent` in `lib/api.ts`).  `agent_step` carries a
status that on the wire is restricted to running/done/error; we reuse
`PhaseStatus` as its carrier. -/
inductive SSEEvent where
  | agent_step (node : String) (status : PhaseStatus)
  | audience_result (data : AudienceResult)
  | campaign_draft (data : CampaignDraft)
  | scheduled (data : ScheduleResult)
  | token (content : String)
  | done
  | error (message : String)
deriving DecidableEq, Repr

/-! ### JS string builtins used by the source, modelled structurally over
the character list so that they evaluate on concrete inputs. -/

/-- Strip leading whitespace characters. -/
def trimLeftChars : List Char → List Char
  | [] => []
  | c :: cs => if c.isWhitespace then trimLeftChars cs else c :: cs

/-- JS `String.prototype.trim`: strip whitespace from both ends. -/
def jsTrim (s : String) : String :=
  ⟨(trimLeftChars ((trimLeftChars s.data).reverse)).reverse⟩

/-- JS `String.prototype.startsWith`. -/
def jsStartsWith (s pre : String) : Bool :=
  List.isPrefixOf pre.data s.data

/-- JS `String.prototype.slice(n)` for a non-negative start index. -/
def jsSlice (s : String) (n : Nat) : String :=
  ⟨s.data.drop n⟩

/-! ### Phase projection (`updatePhase` in Chat.tsx, `AgentPipeline.tsx`) -/

/-- The phase map held in the `phases` React state, as an insertion-ordered
association list, modelling a JS object. -/
abbrev Phases := List (String × PhaseStatus)

/-- `updatePhase`: `setPhases(prev => ({ ...prev, [node]: status }))`.
JS spread semantics: an existing key keeps its position and gets the new
value; a new key is appended. -/
def updatePhase (ps : Phases) (node : String) (status : PhaseStatus) : Phases :=
  if (ps.map Prod.fst).contains node then
    ps.map (fun p => if p.1 = node then (p.1, status) else p)
  else
    ps ++ [(node, status)]

/-- Reading a phase for display: `activePhases[phase.id] ?? "idle"`. -/
def getPhase (ps : Phases) (id : String) : PhaseStatus :=
  (ps.lookup id).getD .idle

/-- The fixed list of displayed phase ids (`PHASES` in AgentPipeline.tsx). -/
def PHASES : List String :=
  ["analyzing", "audience_research", "strategy", "copy_writing", "scheduling"]

/-- The status shown for each displayed phase by `AgentPipeline`. -/
def pipelineStatuses (ps : Phases) : List (String × PhaseStatus) :=
  PHASES.map (fun pid => (pid, getPhase ps pid))

/-- Modelled from the spec: the claimed fixed, total node-to-UI-phase mapping
(`analyzing -> analyzing`, `query_crm -> audience_research`,
`generate_campaign_copy -> copy_writing`, `schedule_campaign -> scheduling`),
which is absent from the client source. -/
def specNodeToPhase (node : String) : Option String :=
  if node = "analyzing" then some "analyzing"
  else if node = "query_crm" then some "audience_research"
  else if node = "generate_campaign_copy" then some "copy_writing"
  else if node = "schedule_campaign" then some "scheduling"
  else none

/-! ### The stream reducer inside `send` (Chat.tsx lines 67–126) -/

/-- The per-request reducer state: the in-progress assistant message's
content blocks, the token buffer `textBuffer`, and the `phases` map. -/
structure StreamState where
  contents : List MessageContent
  textBuffer : String
  phases : Phases
deriving DecidableEq, Repr

/-- Committing a snapshot of the text buffer into the content-block list
(the body of `flushText`): merge into the last block when it is a text
block, otherwise append a new text block; an empty snapshot is a no-op
(`if (!textBuffer) return`). -/
def flushCommit (contents : List MessageContent) (snapshot : String) :
    List MessageContent :=
  if snapshot = "" then contents
  else
    match contents.getLast? with
    | some (.text t) => contents.dropLast ++ [.text (t ++ snapshot)]
    | _ => contents ++ [.text snapshot]

/-- `flushText`: commit the buffer and clear it. -/
def flushText (s : StreamState) : StreamState :=
  { s with contents := flushCommit s.contents s.textBuffer, textBuffer := "" }

/-- `appendContent`: flush the pending text, then append the block. -/
def appendContent (s : StreamState) (c : MessageContent) : StreamState :=
  let s' := flushText s
  { s' with contents := s'.contents ++ [c] }

/-- One step of the event loop in `send`, parameterised by the token-flush
threshold (the source uses the literal `50`:
`if (textBuffer.length > 50) flushText()`). -/
def stepEventAt (thr : Nat) (s : StreamState) (e : SSEEvent) : StreamState :=
  match e with
  | .agent_step node status => { s with phases := updatePhase s.phases node status }
  | .token c =>
      let s' := { s with textBuffer := s.textBuffer ++ c }
      if thr < s'.textBuffer.length then flushText s' else s'
  | .audience_result d => appendContent (flushText s) (.audience d)
  | .campaign_draft d => appendContent (flushText s) (.campaign d)
  | .scheduled d => appendContent (flushText s) (.scheduled d)
  | .done => flushText s
  | .error m => appendContent (flushText s) (.text ("⚠️ " ++ m))

/-- The event loop with the source's threshold of 50. -/
def stepEvent (s : StreamState) (e : SSEEvent) : StreamState :=
  stepEventAt 50 s e

/-- Run the loop over a delivered event sequence. -/
def runEventsAt (thr : Nat) (s : StreamState) (evs : List SSEEvent) : StreamState :=
  evs.foldl (stepEventAt thr) s

/-- Reference reducer for the flush-independence guarantee: identical to the
loop except that every token is committed immediately (flush after each
token, no batching). -/
def stepEventRef (s : StreamState) (e : SSEEvent) : StreamState :=
  match e with
  | .token c => flushText { s with textBuffer := s.textBuffer ++ c }
  | e => stepEventAt 0 s e

/-- Run the un-batched reference reducer. -/
def runEventsRef (s : StreamState) (evs : List SSEEvent) : StreamState :=
  evs.foldl stepEventRef s

/-- The reducer state at the start of a request: empty assistant contents,
empty buffer, `setPhases({})`. -/
def initStream : StreamState := ⟨[], "", []⟩

/-- Whether the last content block is a text block (`last?.kind === "text"`). -/
def lastIsText (cs : List MessageContent) : Bool :=
  match cs.getLast? with
  | some (.text _) => true
  | _ => false

/-- A structured (non-text) block. -/
def isStructured : MessageContent → Bool
  | .text _ => false
  | _ => true

/-- The structured blocks of a content list, in order. -/
def structuredBlocks (cs : List MessageContent) : List MessageContent :=
  cs.filter isStructured

/-- The content blocks that the structured events of a sequence produce,
in event order. -/
def structuredEvents : List SSEEvent → List MessageContent
  | [] => []
  | .audience_result d :: es => .audience d :: structuredEvents es
  | .campaign_draft d :: es => .campaign d :: structuredEvents es
  | .scheduled d :: es => .scheduled d :: structuredEvents es
  | _ :: es => structuredEvents es

/-- Terminal events (`done` / `error`). -/
def isTerminal : SSEEvent → Bool
  | .done => true
  | .error _ => true
  | _ => false

/-! ### `send` (Chat.tsx lines 33–139) -/

/-- The Chat component's state relevant to `send`: the message list, the
input field, the streaming lock and the phase map. -/
structure ChatState where
  messages : List Message
  input : String
  isStreaming : Bool
  phases : Phases
deriving DecidableEq, Repr

/-- The text of a text block. -/
def textOf : MessageContent → Option String
  | .text t => some t
  | _ => none

/-- One history entry for the API:
`{ role: m.role, content: m.contents.filter(text).map(text).join("\n") }`. -/
def buildHistoryEntry (m : Message) : ChatMessage :=
  { role := m.role, content := String.intercalate "\n" (m.contents.filterMap textOf) }

/-- The chat history transmitted with a request (Chat.tsx lines 49–55),
built over `[...messages, userMessage]`. -/
def buildHistory (msgs : List Message) : List ChatMessage :=
  msgs.map buildHistoryEntry

/-- `send`, modelled as a pure function.  Inputs beyond the component state:
the submitted text, the two generated uuids, the events delivered by
`streamChat` before the stream ended or threw, and the thrown exception
message when the transport failed (`none` when the stream ended normally).
Returns the final component state and the request payload sent to
`streamChat` (`none` when the guard made the call a no-op and no request
was issued).  The `finally` block always clears the streaming lock. -/
def send (st : ChatState) (text uid aid : String) (events : List SSEEvent)
    (exn : Option String) : ChatState × Option (List ChatMessage) :=
  if jsTrim text = "" ∨ st.isStreaming then (st, none)
  else
    let userMessage : Message := ⟨uid, .user, [.text (jsTrim text)]⟩
    let history := buildHistory (st.messages ++ [userMessage])
    let s1 := runEventsAt 50 initStream events
    let s2 := match exn with
      | some m => appendContent s1 (.text ("⚠️ Connection error: " ++ m))
      | none => s1
    ({ messages := st.messages ++ [userMessage, ⟨aid, .assistant, s2.contents⟩],
       input := "",
       isStreaming := false,
       phases := s2.phases }, some history)

/-! ### Rendering (`MessageBubble` in Message.tsx, `SMSPreview` in
CampaignPreview.tsx) -/

/-- What the renderer produces for one content block. -/
inductive Rendered where
  | textBubble (t : String)
  | audienceCard (d : AudienceResult)
  | campaignPreview (d : CampaignDraft)
  | scheduledCard (d : ScheduleResult)
deriving DecidableEq, Repr

/-- `MessageBubble`'s per-block rendering: a zero-count audience block
renders `null` (`if (content.data.count === 0) return null`); every other
block renders its card. -/
def renderContent (c : MessageContent) : Option Rendered :=
  match c with
  | .text t => some (.textBubble t)
  | .audience d => if d.count = 0 then none else some (.audienceCard d)
  | .campaign d => some (.campaignPreview d)
  | .scheduled d => some (.scheduledCard d)

/-- The rendered transcript of a message's content list
(`message.contents.map(...)` with the `null` entries contributing nothing). -/
def renderContents (cs : List MessageContent) : List Rendered :=
  cs.filterMap renderContent

/-- What `SMSPreview` displays: the full body, the character-count label and
the over-budget flag that only switches the indicator's colour class. -/
structure SMSPreviewView where
  displayedBody : String
  charLabel : String
  overBudget : Bool
deriving DecidableEq, Repr

/-- `SMSPreview`: `charCount = sms.body.length`, `isOver = charCount > 160`;
the body is rendered whole and `isOver` only selects the indicator class. -/
def SMSPreview (sms : SMSDraft) : SMSPreviewView :=
  { displayedBody := sms.body
    charLabel := toString sms.body.length ++ "/160 chars"
    overBudget := 160 < sms.body.length }

/-! ### `streamChat` frame decoding (`lib/api.ts`, listed in ENGINEERING.md
lines 321–357).  The SSE byte stream is split on the `"\n\n"` delimiter;
each delimited part is handled by the loop body below.  `JSON.parse` is an
external runtime primitive; it is modelled as a parameter
`parse : String → Option SSEEvent`, with `none` standing for the thrown
parse error that the `try`/`catch` swallows. -/

/-- The per-part loop body of `streamChat`: trim the part, require the
`"data: "` prefix (`if (!line.startsWith("data: ")) continue`), strip it
(`line.slice(6)`), and parse, skipping malformed frames. -/
def decodeFrame (parse : String → Option SSEEvent) (part : String) :
    Option SSEEvent :=
  let line := jsTrim part
  if jsStartsWith line "data: " then parse (jsSlice line 6) else none

/-- The event sequence `streamChat` yields for a list of delimited parts. -/
def streamChatEvents (parse : String → Option SSEEvent)
    (parts : List String) : List SSEEvent :=
  parts.filterMap (decodeFrame parse)

/-- Concatenation of token fragments in arrival order (the span text the
text-concatenation invariant talks about). -/
def joinTokens : List String → String
  | [] => ""
  | t :: ts => t ++ joinTokens ts

/-! ### Basic lemmas about the flush operation -/

theorem append_ne_empty {a : String} (b : String) (h : a ≠ "") : a ++ b ≠ "" := by
  intro hc
  apply h
  have hd := congrArg String.data hc
  simp at hd
  exact String.ext hd.1

theorem flushCommit_empty (c : List MessageContent) : flushCommit c "" = c := by
  simp [flushCommit]

theorem flushCommit_append (c : List MessageContent) (b₁ b₂ : String) :
    flushCommit (flushCommit c b₁) b₂ = flushCommit c (b₁ ++ b₂) := by
  by_cases h₁ : b₁ = ""
  · subst h₁
    simp [flushCommit_empty]
  · have h₁₂ : b₁ ++ b₂ ≠ "" := append_ne_empty b₂ h₁
    by_cases h₂ : b₂ = ""
    · subst h₂
      simp [flushCommit_empty]
    · cases hl : c.getLast? with
      | none =>
          have hc : c = [] := by
            cases c with
            | nil => rfl
            | cons x xs => simp at hl
          subst hc
          simp [flushCommit, h₁, h₂, h₁₂, List.getLast?_concat, String.append_assoc]
      | some last =>
          obtain ⟨c', rfl⟩ := List.getLast?_eq_some_iff.mp hl
          cases last with
          | text t =>
              simp [flushCommit, h₁, h₂, h₁₂, List.getLast?_concat,
                List.dropLast_concat, String.append_assoc]
          | audience d =>
              simp [flushCommit, h₁, h₂, h₁₂, List.getLast?_concat,
                List.dropLast_concat, String.append_assoc]
          | campaign d =>
              simp [flushCommit, h₁, h₂, h₁₂, List.getLast?_concat,
                List.dropLast_concat, String.append_assoc]
          | scheduled d =>
              simp [flushCommit, h₁, h₂, h₁₂, List.getLast?_concat,
                List.dropLast_concat, String.append_assoc]

theorem flushText_of_empty {s : StreamState} (h : s.textBuffer = "") :
    flushText s = s := by
  cases s with
  | mk c b p =>
      simp at h
      subst h
      simp [flushText, flushCommit_empty]

theorem flushText_flushText (s : StreamState) :
    flushText (flushText s) = flushText s :=
  flushText_of_empty rfl

/-! ### Simulation of the batched reducer by the un-batched one -/

theorem flushText_step (thr : Nat) (s : StreamState) (e : SSEEvent) :
    flushText (stepEventAt thr s e) = stepEventRef (flushText s) e := by
  cases e with
  | agent_step n st =>
      simp [stepEventAt, stepEventRef, flushText]
  | token c =>
      have hkey : flushCommit s.contents (s.textBuffer ++ c)
          = flushCommit (flushCommit s.contents s.textBuffer) c :=
        (flushCommit_append s.contents s.textBuffer c).symm
      simp only [stepEventAt, stepEventRef]
      split
      · rw [flushText_flushText]
        simp [flushText, hkey]
      · simp [flushText, hkey]
  | audience_result d =>
      simp [stepEventAt, stepEventRef, appendContent, flushText_flushText, flushText,
        flushCommit_empty]
  | campaign_draft d =>
      simp [stepEventAt, stepEventRef, appendContent, flushText_flushText, flushText,
        flushCommit_empty]
  | scheduled d =>
      simp [stepEventAt, stepEventRef, appendContent, flushText_flushText, flushText,
        flushCommit_empty]
  | done =>
      simp [stepEventAt, stepEventRef, flushText_flushText]
  | error m =>
      simp [stepEventAt, stepEventRef, appendContent, flushText_flushText, flushText,
        flushCommit_empty]

theorem flushText_run (thr : Nat) (evs : List SSEEvent) (s : StreamState) :
    flushText (runEventsAt thr s evs) = runEventsRef (flushText s) evs := by
  induction evs generalizing s with
  | nil => simp [runEventsAt, runEventsRef]
  | cons e es ih =>
      show flushText (runEventsAt thr (stepEventAt thr s e) es)
        = runEventsRef (stepEventRef (flushText s) e) es
      rw [ih (stepEventAt thr s e), flushText_step]

theorem textBuffer_step_terminal (thr : Nat) (s : StreamState) (e : SSEEvent)
    (h : isTerminal e = true) : (stepEventAt thr s e).textBuffer = "" := by
  cases e <;> simp [isTerminal] at h <;>
    simp [stepEventAt, flushText, appendContent]

/-! ### Structured-block order preservation -/

theorem structuredBlocks_flushCommit (c : List MessageContent) (b : String) :
    structuredBlocks (flushCommit c b) = structuredBlocks c := by
  by_cases hb : b = ""
  · subst hb; rw [flushCommit_empty]
  · cases hl : c.getLast? with
    | none =>
        have hc : c = [] := by
          cases c with
          | nil => rfl
          | cons x xs => simp at hl
        subst hc
        simp [flushCommit, hb, structuredBlocks, isStructured]
    | some last =>
        obtain ⟨c', rfl⟩ := List.getLast?_eq_some_iff.mp hl
        cases last with
        | text t =>
            simp [flushCommit, hb, List.getLast?_concat, List.dropLast_concat,
              structuredBlocks, List.filter_append, isStructured]
        | audience d =>
            simp [flushCommit, hb, List.getLast?_concat,
              structuredBlocks, List.filter_append, isStructured]
        | campaign d =>
            simp [flushCommit, hb, List.getLast?_concat,
              structuredBlocks, List.filter_append, isStructured]
        | scheduled d =>
            simp [flushCommit, hb, List.getLast?_concat,
              structuredBlocks, List.filter_append, isStructured]

theorem structuredBlocks_step (thr : Nat) (s : StreamState) (e : SSEEvent) :
    structuredBlocks (stepEventAt thr s e).contents
      = structuredBlocks s.contents ++ structuredEvents [e] := by
  cases e with
  | agent_step n st => simp [stepEventAt, structuredEvents]
  | token c =>
      simp only [stepEventAt]
      split <;>
        simp [flushText, structuredBlocks_flushCommit, structuredEvents]
  | audience_result d =>
      simp [stepEventAt, appendContent, flushText, flushCommit_empty,
        structuredBlocks, List.filter_append, isStructured, structuredEvents]
      simpa [structuredBlocks] using structuredBlocks_flushCommit s.contents s.textBuffer
  | campaign_draft d =>
      simp [stepEventAt, appendContent, flushText, flushCommit_empty,
        structuredBlocks, List.filter_append, isStructured, structuredEvents]
      simpa [structuredBlocks] using structuredBlocks_flushCommit s.contents s.textBuffer
  | scheduled d =>
      simp [stepEventAt, appendContent, flushText, flushCommit_empty,
        structuredBlocks, List.filter_append, isStructured, structuredEvents]
      simpa [structuredBlocks] using structuredBlocks_flushCommit s.contents s.textBuffer
  | done =>
      simp [stepEventAt, flushText, structuredBlocks_flushCommit, structuredEvents]
  | error m =>
      simp [stepEventAt, appendContent, flushText, flushCommit_empty,
        structuredBlocks, List.filter_append, isStructured, structuredEvents]
      simpa [structuredBlocks] using structuredBlocks_flushCommit s.contents s.textBuffer

theorem structuredEvents_append (l₁ l₂ : List SSEEvent) :
    structuredEvents (l₁ ++ l₂) = structuredEvents l₁ ++ structuredEvents l₂ := by
  induction l₁ with
  | nil => simp [structuredEvents]
  | cons e es ih => cases e <;> simp [structuredEvents, ih]

theorem structuredBlocks_run (thr : Nat) (evs : List SSEEvent) (s : StreamState) :
    structuredBlocks (runEventsAt thr s evs).contents
      = structuredBlocks s.contents ++ structuredEvents evs := by
  induction evs generalizing s with
  | nil => simp [runEventsAt, structuredEvents]
  | cons e es ih =>
      show structuredBlocks (runEventsAt thr (stepEventAt thr s e) es).contents
        = structuredBlocks s.contents ++ structuredEvents (e :: es)
      rw [ih (stepEventAt thr s e), structuredBlocks_step]
      have : structuredEvents (e :: es) = structuredEvents [e] ++ structuredEvents es := by
        simpa using structuredEvents_append [e] es
      rw [this, List.append_assoc]

theorem runEventsAt_append (thr : Nat) (s : StreamState) (l₁ l₂ : List SSEEvent) :
    runEventsAt thr s (l₁ ++ l₂) = runEventsAt thr (runEventsAt thr s l₁) l₂ := by
  simp [runEventsAt, List.foldl_append]

theorem flushCommit_of_notText (c : List MessageContent) (b : String)
    (hl : lastIsText c = false) (hb : b ≠ "") :
    flushCommit c b = c ++ [.text b] := by
  unfold flushCommit
  rw [if_neg hb]
  cases hml : c.getLast? with
  | none => rfl
  | some last =>
      cases last with
      | text t => simp [lastIsText, hml] at hl
      | audience d => rfl
      | campaign d => rfl
      | scheduled d => rfl

theorem flushCommit_of_text (pre : List MessageContent) (t b : String)
    (hb : b ≠ "") :
    flushCommit (pre ++ [.text t]) b = pre ++ [.text (t ++ b)] := by
  simp [flushCommit, hb, List.getLast?_concat, List.dropLast_concat]

theorem runTokens_flush (thr : Nat) (ts : List String) (s : StreamState) :
    flushText (runEventsAt thr s (ts.map SSEEvent.token))
      = ⟨flushCommit s.contents (s.textBuffer ++ joinTokens ts), "", s.phases⟩ := by
  induction ts generalizing s with
  | nil =>
      simp [runEventsAt, flushText, joinTokens]
  | cons t ts ih =>
      show flushText (runEventsAt thr (stepEventAt thr s (.token t)) (ts.map .token)) = _
      simp only [stepEventAt]
      split
      · rw [ih]
        simp [flushText, flushCommit_append, joinTokens, String.append_assoc]
      · rw [ih]
        simp [joinTokens, String.append_assoc]

/-! ### Claim theorems -/

/-- C1: for every event sequence closed by a terminal event (`done` or
`error`), the batched reducer (token flush at the source's >50-character
threshold, or any other threshold) ends in exactly the same state as the
un-batched reference reducer that commits every token immediately, and the
structured blocks of the reconstructed content list are exactly the
structured events of the sequence, in the same relative order.  This is
proved for arbitrary event sequences, hence in particular for the
well-formed ones the spec describes. -/
theorem C1_flush_threshold_independence (thr : Nat) (evs : List SSEEvent)
    (term : SSEEvent) (hterm : isTerminal term = true) :
    runEventsAt thr initStream (evs ++ [term])
      = runEventsRef initStream (evs ++ [term]) ∧
    structuredBlocks (runEventsAt thr initStream (evs ++ [term])).contents
      = structuredEvents (evs ++ [term]) := by
  have hbuf : (runEventsAt thr initStream (evs ++ [term])).textBuffer = "" := by
    rw [runEventsAt_append]
    show (stepEventAt thr (runEventsAt thr initStream evs) term).textBuffer = ""
    exact textBuffer_step_terminal thr _ term hterm
  constructor
  · calc runEventsAt thr initStream (evs ++ [term])
        = flushText (runEventsAt thr initStream (evs ++ [term])) :=
          (flushText_of_empty hbuf).symm
      _ = runEventsRef (flushText initStream) (evs ++ [term]) :=
          flushText_run thr _ initStream
      _ = runEventsRef initStream (evs ++ [term]) := by
          rw [flushText_of_empty rfl]
  · rw [structuredBlocks_run]
    simp [initStream, structuredBlocks]

/-- Witness for C1 at a concrete stream: a token, an audience result, more
tokens, then `done`. -/
theorem C1_flush_threshold_independence_witness :
    isTerminal SSEEvent.done = true ∧
    (runEventsAt 50 initStream
        ([SSEEvent.token "Searching…",
          SSEEvent.audience_result ⟨12, "seg_jazz", 85, 0, []⟩,
          SSEEvent.token "Found ", SSEEvent.token "12 fans."] ++ [SSEEvent.done])
      = runEventsRef initStream
        ([SSEEvent.token "Searching…",
          SSEEvent.audience_result ⟨12, "seg_jazz", 85, 0, []⟩,
          SSEEvent.token "Found ", SSEEvent.token "12 fans."] ++ [SSEEvent.done]) ∧
    structuredBlocks (runEventsAt 50 initStream
        ([SSEEvent.token "Searching…",
          SSEEvent.audience_result ⟨12, "seg_jazz", 85, 0, []⟩,
          SSEEvent.token "Found ", SSEEvent.token "12 fans."] ++ [SSEEvent.done])).contents
      = structuredEvents
        ([SSEEvent.token "Searching…",
          SSEEvent.audience_result ⟨12, "seg_jazz", 85, 0, []⟩,
          SSEEvent.token "Found ", SSEEvent.token "12 fans."] ++ [SSEEvent.done])) :=
  ⟨rfl, C1_flush_threshold_independence 50
    [SSEEvent.token "Searching…",
     SSEEvent.audience_result ⟨12, "seg_jazz", 85, 0, []⟩,
     SSEEvent.token "Found ", SSEEvent.token "12 fans."] SSEEvent.done rfl⟩

/-- C3: for a span of token events delivered from a state with an empty
buffer and no preceding text block to merge into (the situation right after
a structured event or at the start of the turn), the text the reducer
ultimately commits for the span — at the next flush-forcing event — is
exactly the concatenation of the token contents in arrival order, as one
text block (or nothing when the concatenation is empty), for every flush
threshold. -/
theorem C3_token_concatenation (thr : Nat) (ts : List String) (s : StreamState)
    (hbuf : s.textBuffer = "") (hlast : lastIsText s.contents = false) :
    (flushText (runEventsAt thr s (ts.map SSEEvent.token))).contents
      = s.contents
        ++ (if joinTokens ts = "" then [] else [.text (joinTokens ts)]) := by
  rw [runTokens_flush]
  show flushCommit s.contents (s.textBuffer ++ joinTokens ts) = _
  rw [hbuf]
  by_cases hj : joinTokens ts = ""
  · simp [hj, flushCommit_empty]
  · rw [if_neg hj]
    have : ("" : String) ++ joinTokens ts = joinTokens ts := by simp
    rw [this, flushCommit_of_notText s.contents (joinTokens ts) hlast hj]

/-- Witness for C3: three fragments committed across a threshold-15 flush
still concatenate exactly. -/
theorem C3_token_concatenation_witness :
    initStream.textBuffer = "" ∧ lastIsText initStream.contents = false ∧
    (flushText (runEventsAt 15 initStream
        (["I found ", "12 jazz fans ", "in Chicago."].map SSEEvent.token))).contents
      = initStream.contents
        ++ (if joinTokens ["I found ", "12 jazz fans ", "in Chicago."] = "" then []
            else [.text (joinTokens ["I found ", "12 jazz fans ", "in Chicago."])]) :=
  ⟨rfl, rfl,
    C3_token_concatenation 15 ["I found ", "12 jazz fans ", "in Chicago."]
      initStream rfl rfl⟩

/-- C4: flushing a non-empty pending buffer merges it into the immediately
preceding block exactly when that block is a text block (first conjunct),
otherwise appends it as a new single text block (second conjunct); and each
structured event appends its structured block only after this flush (the
remaining conjuncts). -/
theorem C4_flush_merges_only_into_text (s : StreamState)
    (hb : s.textBuffer ≠ "") :
    (∀ pre t, s.contents = pre ++ [.text t] →
        (flushText s).contents = pre ++ [.text (t ++ s.textBuffer)]) ∧
    (lastIsText s.contents = false →
        (flushText s).contents = s.contents ++ [.text s.textBuffer]) ∧
    (∀ thr d, stepEventAt thr s (.audience_result d)
        = ⟨(flushText s).contents ++ [.audience d], "", s.phases⟩) ∧
    (∀ thr d, stepEventAt thr s (.campaign_draft d)
        = ⟨(flushText s).contents ++ [.campaign d], "", s.phases⟩) ∧
    (∀ thr d, stepEventAt thr s (.scheduled d)
        = ⟨(flushText s).contents ++ [.scheduled d], "", s.phases⟩) := by
  refine ⟨?_, ?_, ?_, ?_, ?_⟩
  · intro pre t hc
    show flushCommit s.contents s.textBuffer = _
    rw [hc, flushCommit_of_text pre t s.textBuffer hb]
  · intro hl
    show flushCommit s.contents s.textBuffer = _
    rw [flushCommit_of_notText s.contents s.textBuffer hl hb]
  · intro thr d
    simp [stepEventAt, appendContent, flushText_flushText, flushText, flushCommit_empty]
  · intro thr d
    simp [stepEventAt, appendContent, flushText_flushText, flushText, flushCommit_empty]
  · intro thr d
    simp [stepEventAt, appendContent, flushText_flushText, flushText, flushCommit_empty]

/-- Witness for C4 at a state whose last block is a structured block and
whose buffer is non-empty. -/
theorem C4_flush_merges_only_into_text_witness :
    (StreamState.textBuffer ⟨[.audience ⟨3, "s", 10, 0, []⟩], "pending", []⟩ ≠ "") ∧
    lastIsText (StreamState.contents ⟨[.audience ⟨3, "s", 10, 0, []⟩], "pending", []⟩)
        = false ∧
    (flushText ⟨[.audience ⟨3, "s", 10, 0, []⟩], "pending", []⟩).contents
        = [.audience ⟨3, "s", 10, 0, []⟩, .text "pending"] :=
  ⟨by decide, rfl,
    by
      have h := (C4_flush_merges_only_into_text
        ⟨[.audience ⟨3, "s", 10, 0, []⟩], "pending", []⟩ (by decide)).2.1 rfl
      simpa using h⟩

/-- C5: a corrupt frame — one the per-frame guard rejects, i.e. not a
`"data: "`-prefixed, parseable payload — anywhere between the other frames
is dropped without terminating the stream: the yielded event sequence, and
hence the transcript the reducer reconstructs from it, equal those of the
same stream with the corrupt frame removed.  (`streamChat` splits the byte
stream on the `"\n\n"` delimiter; a corrupt frame contains no delimiter, so
removing it from the byte stream removes exactly its part from the split.) -/
theorem C5_malformed_frame_resilience (parse : String → Option SSEEvent)
    (pre post : List String) (corrupt : String)
    (hc : decodeFrame parse corrupt = none) :
    streamChatEvents parse (pre ++ [corrupt] ++ post)
      = streamChatEvents parse (pre ++ post) ∧
    runEventsAt 50 initStream (streamChatEvents parse (pre ++ [corrupt] ++ post))
      = runEventsAt 50 initStream (streamChatEvents parse (pre ++ post)) := by
  have h1 : streamChatEvents parse (pre ++ [corrupt] ++ post)
      = streamChatEvents parse (pre ++ post) := by
    simp [streamChatEvents, List.filterMap_append, hc]
  exact ⟨h1, by rw [h1]⟩

/-- Witness for C5: a garbage frame between two valid `done` frames, with a
concrete parser. -/
theorem C5_malformed_frame_resilience_witness :
    decodeFrame (fun s => if s = "done" then some SSEEvent.done else none)
        "garbage" = none ∧
    streamChatEvents (fun s => if s = "done" then some SSEEvent.done else none)
        (["data: done"] ++ ["garbage"] ++ ["data: done"])
      = streamChatEvents (fun s => if s = "done" then some SSEEvent.done else none)
        (["data: done"] ++ ["data: done"]) ∧
    runEventsAt 50 initStream
        (streamChatEvents (fun s => if s = "done" then some SSEEvent.done else none)
          (["data: done"] ++ ["garbage"] ++ ["data: done"]))
      = runEventsAt 50 initStream
        (streamChatEvents (fun s => if s = "done" then some SSEEvent.done else none)
          (["data: done"] ++ ["data: done"])) :=
  ⟨rfl,
    C5_malformed_frame_resilience (fun s => if s = "done" then some SSEEvent.done else none)
      ["data: done"] ["data: done"] "garbage" rfl⟩

theorem send_guard_not (text : String) (st : ChatState)
    (htext : ¬ jsTrim text = "") (hlock : st.isStreaming = false) :
    ¬ (jsTrim text = "" ∨ st.isStreaming) := by
  intro h
  rcases h with h | h
  · exact htext h
  · rw [hlock] at h
    exact absurd h Bool.false_ne_true

theorem send_isStreaming_false (st : ChatState) (text uid aid : String)
    (evs : List SSEEvent) (exn : Option String)
    (hguard : ¬ (jsTrim text = "" ∨ st.isStreaming)) :
    (send st text uid aid evs exn).1.isStreaming = false := by
  simp [send, hguard]

theorem send_issues_request (st : ChatState) (text uid aid : String)
    (evs : List SSEEvent) (exn : Option String)
    (hguard : ¬ (jsTrim text = "" ∨ st.isStreaming)) :
    (send st text uid aid evs exn).2 ≠ none := by
  simp [send, hguard]

/-- C6: on both failure paths — an `error` event in the stream, and a
transport exception escaping the per-frame guard — `send` flushes the
pending text, appends a visible text block carrying the error message to
the assistant message, and ends with the streaming lock released, so that a
subsequent `send` with non-empty input issues a request. -/
theorem C6_failure_visible_and_lock_released (st : ChatState)
    (text uid aid : String) (evs : List SSEEvent) (m : String)
    (htext : ¬ jsTrim text = "") (hlock : st.isStreaming = false) :
    ((send st text uid aid evs (some m)).1.isStreaming = false ∧
     (send st text uid aid evs (some m)).1.messages
       = st.messages ++ [⟨uid, .user, [.text (jsTrim text)]⟩,
           ⟨aid, .assistant,
             (flushText (runEventsAt 50 initStream evs)).contents
               ++ [.text ("⚠️ Connection error: " ++ m)]⟩]) ∧
    ((send st text uid aid (evs ++ [.error m]) none).1.isStreaming = false ∧
     (send st text uid aid (evs ++ [.error m]) none).1.messages
       = st.messages ++ [⟨uid, .user, [.text (jsTrim text)]⟩,
           ⟨aid, .assistant,
             (flushText (runEventsAt 50 initStream evs)).contents
               ++ [.text ("⚠️ " ++ m)]⟩]) ∧
    (∀ text₂ uid₂ aid₂ evs₂ exn₂, ¬ jsTrim text₂ = "" →
       (send (send st text uid aid evs (some m)).1 text₂ uid₂ aid₂ evs₂ exn₂).2
         ≠ none) := by
  have hguard : ¬ (jsTrim text = "" ∨ st.isStreaming) :=
    send_guard_not text st htext hlock
  refine ⟨⟨?_, ?_⟩, ⟨?_, ?_⟩, ?_⟩
  · exact send_isStreaming_false st text uid aid evs (some m) hguard
  · simp [send, hguard, appendContent, flushText_flushText, flushText,
      flushCommit_empty]
  · exact send_isStreaming_false st text uid aid (evs ++ [.error m]) none hguard
  · have herr : runEventsAt 50 initStream (evs ++ [SSEEvent.error m])
        = appendContent (flushText (runEventsAt 50 initStream evs))
            (.text ("⚠️ " ++ m)) := by
      rw [runEventsAt_append]
      rfl
    simp [send, hguard, herr, appendContent, flushText_flushText, flushText,
      flushCommit_empty]
  · intro text₂ uid₂ aid₂ evs₂ exn₂ htext₂
    exact send_issues_request _ text₂ uid₂ aid₂ evs₂ exn₂
      (send_guard_not text₂ _ htext₂
        (send_isStreaming_false st text uid aid evs (some m) hguard))

/-- Witness for C6 at a concrete failed request. -/
theorem C6_failure_visible_and_lock_released_witness :
    (¬ (jsTrim "retry" = "")) ∧
    ((ChatState.isStreaming ⟨[], "", false, []⟩) = false) ∧
    ((send ⟨[], "", false, []⟩ "retry" "u1" "a1" [SSEEvent.token "hm"]
        (some "fetch failed")).1.isStreaming = false ∧
     (send ⟨[], "", false, []⟩ "retry" "u1" "a1" [SSEEvent.token "hm"]
        (some "fetch failed")).1.messages
       = [] ++ [⟨"u1", .user, [.text (jsTrim "retry")]⟩,
           ⟨"a1", .assistant,
             (flushText (runEventsAt 50 initStream [SSEEvent.token "hm"])).contents
               ++ [.text ("⚠️ Connection error: " ++ "fetch failed")]⟩]) :=
  ⟨by decide, rfl,
    (C6_failure_visible_and_lock_released ⟨[], "", false, []⟩ "retry" "u1" "a1"
      [SSEEvent.token "hm"] "fetch failed" (by decide) rfl).1⟩

/-- C2: evaluation of the client at the documented event
`agent_step{node: "query_crm", status: "running"}`.  `updatePhase` stores
the status under the raw node key, not under the UI phase the spec's fixed
mapping assigns (`query_crm -> audience_research`), so the displayed
pipeline — which reads the ids `analyzing`/`audience_research`/`strategy`/
`copy_writing`/`scheduling` — is left entirely idle; an out-of-set node
value is likewise stored but ignored by the display (tolerated, not
fatal). -/
theorem C2_node_status_not_recorded_under_mapped_phase :
    updatePhase [] "query_crm" .running = [("query_crm", .running)] ∧
    specNodeToPhase "query_crm" = some "audience_research" ∧
    getPhase (updatePhase [] "query_crm" .running) "audience_research" = .idle ∧
    pipelineStatuses (updatePhase [] "query_crm" .running) = pipelineStatuses [] ∧
    pipelineStatuses (updatePhase [] "some_unknown_node" .running)
      = pipelineStatuses [] := by
  decide

/-- C7: a zero-count audience block renders nothing — the rendered
transcript with such a block inserted anywhere equals the rendered
transcript without it, while the block itself stays in the content list the
renderer maps over — and a positive-count audience block renders its card.
The phase projection is a separate piece of state the renderer does not
read. -/
theorem C7_zero_count_audience_suppressed (d : AudienceResult)
    (pre post : List MessageContent) :
    (d.count = 0 →
       renderContents (pre ++ .audience d :: post) = renderContents (pre ++ post)) ∧
    (d.count ≠ 0 → renderContent (.audience d) = some (.audienceCard d)) := by
  constructor
  · intro h
    simp [renderContents, renderContent, h]
  · intro h
    simp [renderContent, h]

/-- Witness for C7 at a zero-count block between two text blocks, and a
five-count block. -/
theorem C7_zero_count_audience_suppressed_witness :
    (AudienceResult.count ⟨0, "seg_empty", 0, 0, []⟩ = 0 ∧
     renderContents ([.text "a"] ++ .audience ⟨0, "seg_empty", 0, 0, []⟩ :: [.text "b"])
       = renderContents ([.text "a"] ++ [.text "b"])) ∧
    (AudienceResult.count ⟨5, "seg_five", 0, 0, []⟩ ≠ 0 ∧
     renderContent (.audience ⟨5, "seg_five", 0, 0, []⟩)
       = some (.audienceCard ⟨5, "seg_five", 0, 0, []⟩)) :=
  ⟨⟨rfl,
    (C7_zero_count_audience_suppressed ⟨0, "seg_empty", 0, 0, []⟩
      [.text "a"] [.text "b"]).1 rfl⟩,
   ⟨by decide,
    (C7_zero_count_audience_suppressed ⟨5, "seg_five", 0, 0, []⟩ [] []).2
      (by decide)⟩⟩

/-- C8: the SMS preview displays the draft body whole whatever its length;
exceeding 160 characters only flips the advisory over-budget flag (which
selects the indicator's styling); and the reducer stores the campaign draft
in the transcript unaltered. -/
theorem C8_sms_body_never_truncated (d : CampaignDraft) (evs : List SSEEvent) :
    (SMSPreview d.sms).displayedBody = d.sms.body ∧
    ((SMSPreview d.sms).overBudget = true ↔ 160 < d.sms.body.length) ∧
    (runEventsAt 50 initStream (evs ++ [.campaign_draft d])).contents.getLast?
      = some (.campaign d) := by
  refine ⟨rfl, by simp [SMSPreview], ?_⟩
  rw [runEventsAt_append]
  show (stepEventAt 50 (runEventsAt 50 initStream evs)
      (.campaign_draft d)).contents.getLast? = _
  simp [stepEventAt, appendContent, List.getLast?_concat]

/-- C9: the transmitted history has one entry per message; a structured
block inserted anywhere in a message leaves its entry unchanged (structured
blocks are never sent back); a message made only of structured blocks
contributes an empty content string; and a guard-passing `send` transmits
exactly `buildHistory` of the prior messages plus the new user message. -/
theorem C9_history_sends_text_blocks_only (msgs : List Message)
    (st : ChatState) (text uid aid : String) (evs : List SSEEvent)
    (exn : Option String)
    (hguard : ¬ (jsTrim text = "" ∨ st.isStreaming)) :
    (buildHistory msgs).length = msgs.length ∧
    (∀ (id : String) (role : Role) (pre post : List MessageContent)
        (b : MessageContent), isStructured b = true →
        buildHistoryEntry ⟨id, role, pre ++ b :: post⟩
          = buildHistoryEntry ⟨id, role, pre ++ post⟩) ∧
    (∀ m : Message, (∀ c ∈ m.contents, isStructured c = true) →
        (buildHistoryEntry m).content = "") ∧
    (send st text uid aid evs exn).2
      = some (buildHistory (st.messages ++ [⟨uid, .user, [.text (jsTrim text)]⟩])) := by
  refine ⟨by simp [buildHistory], ?_, ?_, ?_⟩
  · intro id role pre post b hb
    cases b with
    | text t => simp [isStructured] at hb
    | audience d => simp [buildHistoryEntry, List.filterMap_append, textOf]
    | campaign d => simp [buildHistoryEntry, List.filterMap_append, textOf]
    | scheduled d => simp [buildHistoryEntry, List.filterMap_append, textOf]
  · intro m hm
    have hnil : m.contents.filterMap textOf = [] := by
      rw [List.filterMap_eq_nil_iff]
      intro c hc
      have := hm c hc
      cases c with
      | text t => simp [isStructured] at this
      | audience d => rfl
      | campaign d => rfl
      | scheduled d => rfl
    simp [buildHistoryEntry, hnil]
    rfl
  · simp [send, hguard]

/-- Witness for C9 with a concrete state and input. -/
theorem C9_history_sends_text_blocks_only_witness :
    (¬ (jsTrim "schedule it" = ""
        ∨ ChatState.isStreaming ⟨[⟨"m1", .user, [.text "hi"]⟩], "", false, []⟩)) ∧
    ((buildHistory [⟨"m1", .user, [.text "hi"]⟩]).length
        = [(⟨"m1", .user, [.text "hi"]⟩ : Message)].length ∧
     (send ⟨[⟨"m1", .user, [.text "hi"]⟩], "", false, []⟩ "schedule it" "u2" "a2"
        [] none).2
       = some (buildHistory ([⟨"m1", .user, [.text "hi"]⟩]
           ++ [⟨"u2", .user, [.text (jsTrim "schedule it")]⟩]))) :=
  ⟨by decide,
    (C9_history_sends_text_blocks_only [⟨"m1", .user, [.text "hi"]⟩]
      ⟨[⟨"m1", .user, [.text "hi"]⟩], "", false, []⟩ "schedule it" "u2" "a2"
      [] none (by decide)).1,
    (C9_history_sends_text_blocks_only [⟨"m1", .user, [.text "hi"]⟩]
      ⟨[⟨"m1", .user, [.text "hi"]⟩], "", false, []⟩ "schedule it" "u2" "a2"
      [] none (by decide)).2.2.2⟩

/-- C10: a `send` whose input trims to empty, or issued while a stream is in
progress, is a complete no-op — the component state (messages, input,
phases, streaming lock) is returned unchanged and no request is issued. -/
theorem C10_send_guard_noop (st : ChatState) (text uid aid : String)
    (evs : List SSEEvent) (exn : Option String)
    (h : jsTrim text = "" ∨ st.isStreaming = true) :
    send st text uid aid evs exn = (st, none) := by
  have h' : jsTrim text = "" ∨ st.isStreaming := h
  simp [send, h']

/-- Witness for C10: a whitespace-only input, and a send during streaming. -/
theorem C10_send_guard_noop_witness :
    (jsTrim "   " = "" ∨ ChatState.isStreaming ⟨[], "", false, []⟩ = true) ∧
    send ⟨[], "", false, []⟩ "   " "u" "a" [] none = (⟨[], "", false, []⟩, none) ∧
    (jsTrim "go" = ""
      ∨ ChatState.isStreaming ⟨[⟨"m1", .user, [.text "hi"]⟩], "", true, []⟩ = true) ∧
    send ⟨[⟨"m1", .user, [.text "hi"]⟩], "", true, []⟩ "go" "u" "a"
        [SSEEvent.done] none
      = (⟨[⟨"m1", .user, [.text "hi"]⟩], "", true, []⟩, none) :=
  ⟨Or.inl (by decide),
   C10_send_guard_noop ⟨[], "", false, []⟩ "   " "u" "a" [] none
     (Or.inl (by decide)),
   Or.inr rfl,
   C10_send_guard_noop ⟨[⟨"m1", .user, [.text "hi"]⟩], "", true, []⟩ "go" "u" "a"
     [SSEEvent.done] none (Or.inr rfl)⟩

end HiveDemo
